import Mathlib

/-!
Verification development for a metadata-and-blob catalog service
(an Azure Functions app, src/function_app.py). The five HTTP operations
(list_files, upload_file, update_file, delete_file, search_files) and the
search-index helper ai_search_index are embedded as pure functions over an
explicit backend state `St`, with an environment `Env` that supplies the
generated id, the timestamp, the blob container name, and failure injection
for each backend call (a backend exception in Python is modelled as the
corresponding error result here).

Request bodies are JSON; string-typed fields are modelled at their expected
type (Option String), while `tags` and the update-patch fields are kept as a
general JSON value `JVal` because the code inspects their runtime type.
Because the code reads fields with dict.get, a JSON null value and an absent
key are indistinguishable to it; `none` models both.
-/

/-- A JSON value, as the Python code sees a parsed request field. -/
inductive JVal where
  | jnull
  | jbool (b : Bool)
  | jnum (n : Int)
  | jstr (s : String)
  | jarr (xs : List JVal)
deriving Repr

/-- Python truthiness of a JSON value (used by the code in expressions such
as `data.get("tags") or []`). -/
def JVal.truthy : JVal → Bool
  | .jnull => false
  | .jbool b => b
  | .jnum n => n != 0
  | .jstr s => s != ""
  | .jarr xs => !xs.isEmpty

/-- Models Python isinstance(v, list). -/
def JVal.isArr : JVal → Bool
  | .jarr _ => true
  | _ => false

/-- Elements of an array value (the code only reads elements after an
isinstance(v, list) check, so the default never matters). -/
def JVal.arrElems : JVal → List JVal
  | .jarr xs => xs
  | _ => []

mutual

/-- Python repr() of a JSON value, used by str() on non-string values. -/
def pyRepr : JVal → String
  | .jnull => "None"
  | .jbool true => "True"
  | .jbool false => "False"
  | .jnum n => toString n
  | .jstr s => "'" ++ s ++ "'"
  | .jarr xs => "[" ++ String.intercalate ", " (pyReprList xs) ++ "]"
termination_by v => sizeOf v

/-- repr() of each element of a list. -/
def pyReprList : List JVal → List String
  | [] => []
  | x :: xs => pyRepr x :: pyReprList xs
termination_by xs => sizeOf xs

end

/-- Python str() of a JSON value. -/
def pyStr : JVal → String
  | .jstr s => s
  | v => pyRepr v

/-- The whitespace characters str.strip removes (ASCII range). -/
def isPySpace (c : Char) : Bool :=
  c = ' ' || c = '\t' || c = '\n' || c = '\r' || c = '\x0b' || c = '\x0c'

/-- Drop leading whitespace characters. -/
def dropSpace : List Char → List Char
  | [] => []
  | c :: rest => if isPySpace c then dropSpace rest else c :: rest

/-- Models Python str.strip(): whitespace removed from both ends. -/
def pyStrip (s : String) : String :=
  String.mk (dropSpace (dropSpace s.data.reverse).reverse)

/-- Replace every occurrence of one character by another. Stands for the
single-character str.replace calls of the source. -/
def replaceChar (c r : Char) (s : List Char) : List Char :=
  s.map (fun x => if x = c then r else x)

/-! Base64. The code calls base64.b64decode(s, validate=True): the input must
consist only of standard-alphabet characters with at most two trailing
padding characters, and its length must be a multiple of four; anything else
raises, which the code maps to a validation error. -/

/-- Value of one standard base64 alphabet character. -/
def b64charVal (c : Char) : Option Nat :=
  if 'A' ≤ c ∧ c ≤ 'Z' then some (c.toNat - 65)
  else if 'a' ≤ c ∧ c ≤ 'z' then some (c.toNat - 97 + 26)
  else if '0' ≤ c ∧ c ≤ '9' then some (c.toNat - 48 + 52)
  else if c = '+' then some 62
  else if c = '/' then some 63
  else none

/-- Decode a base64 character stream four characters at a time; padding is
legal only in the final quantum. -/
def b64chunks : List Char → Option (List Nat)
  | [] => some []
  | a :: b :: c :: d :: rest =>
    match b64charVal a, b64charVal b with
    | some va, some vb =>
      if c = '=' then
        if d = '=' ∧ rest = [] then some [va * 4 + vb / 16] else none
      else
        match b64charVal c with
        | some vc =>
          if d = '=' then
            if rest = [] then some [va * 4 + vb / 16, (vb % 16) * 16 + vc / 4]
            else none
          else
            match b64charVal d, b64chunks rest with
            | some vd, some bs =>
              some ([va * 4 + vb / 16, (vb % 16) * 16 + vc / 4,
                     (vc % 4) * 64 + vd] ++ bs)
            | _, _ => none
        | none => none
    | _, _ => none
  | _ => none

/-- Models base64.b64decode(s, validate=True): some bytes on success, none
when the Python call would raise. -/
def b64decode (s : String) : Option (List Nat) :=
  b64chunks s.data

/-! Association lists keyed by string, standing for the keyed backends
(blob container keyed by blob name, document container keyed by id, search
index keyed by id). -/

/-- Point read by key. -/
def getA {α : Type} : List (String × α) → String → Option α
  | [], _ => none
  | (k1, v) :: rest, k => if k1 = k then some v else getA rest k

/-- Upsert by key, keeping the position of an existing entry (blob upload
with overwrite, document replace). -/
def setA {α : Type} : List (String × α) → String → α → List (String × α)
  | [], k, v => [(k, v)]
  | (k1, v1) :: rest, k, v =>
    if k1 = k then (k, v) :: rest else (k1, v1) :: setA rest k v

/-- Delete by key. -/
def eraseA {α : Type} : List (String × α) → String → List (String × α)
  | [], _ => []
  | (k1, v1) :: rest, k =>
    if k1 = k then eraseA rest k else (k1, v1) :: eraseA rest k

/-! The data model. -/

/-- One object in the blob store: bytes plus the content type set at upload. -/
structure Blob where
  data : List Nat
  contentType : String
deriving Repr

/-- The persisted metadata document, field for field the dict built by
upload_file. -/
structure FileDoc where
  id : String
  title : String
  description : String
  institution : String
  tags : List JVal
  blobPath : String
  uploadedAt : String
  filename : String
  contentType : String
  sizeBytes : Nat
deriving Repr

/-- A search-index entry: the projection posted by ai_search_index. The
merge action posted by update_file omits uploadedAt and blobPath, hence the
Option type on those two fields. -/
structure IndexEntry where
  id : String
  title : String
  description : String
  institution : String
  tags : List JVal
  uploadedAt : Option String
  blobPath : Option String
deriving Repr

/-- The projection returned by list_files (SELECT c.id, c.title,
c.description, c.institution, c.tags, c.blobPath, c.uploadedAt). -/
structure ListItem where
  id : String
  title : String
  description : String
  institution : String
  tags : List JVal
  blobPath : String
  uploadedAt : String
deriving Repr

/-- Joint state of the three backends. -/
structure St where
  containerExists : Bool
  blobs : List (String × Blob)
  docs : List (String × FileDoc)
  index : List (String × IndexEntry)
deriving Repr

/-- Environment of one request: configuration, the freshly generated uuid,
the current timestamp, and failure injection for each backend call. -/
structure Env where
  blobContainer : String
  newId : String
  now : String
  blobUploadFails : Bool
  blobDeleteFails : Bool
  docReadFails : Bool
  docWriteFails : Bool
  docDeleteFails : Bool
  docQueryFails : Bool
  searchFails : Bool
  searchResults : List JVal
deriving Repr

/-- Error taxonomy of the logical operations. In the Python source every
backend exception is caught by a per-route handler; the constructors record
which call raised (blob write, document write or delete, document read on a
missing id, search query), which the HTTP layer then serialises. -/
inductive ApiError where
  | validationError (msg : String)
  | notFoundError
  | storageError
  | persistenceError
  | searchUnavailableError
deriving Repr, DecidableEq

/-- True for an ok result. -/
def exceptOk {ε α : Type} : Except ε α → Bool
  | .ok _ => true
  | .error _ => false

/-! The search helper. -/

/-- The three index actions posted by the code. -/
inductive SearchAction where
  | mergeOrUpload
  | merge
  | delete
deriving Repr

/-- Merge semantics of the index: the merge payload of update_file carries
id, title, description, institution and tags, leaving the other stored
fields as they were. -/
def mergeEntry (old new : IndexEntry) : IndexEntry :=
  { old with
    title := new.title
    description := new.description
    institution := new.institution
    tags := new.tags }

/-- Models ai_search_index: posts one action to the search index and swallows
every failure (logged only), so the caller never observes an error. On
searchFails nothing reaches the index. A merge action on an absent document
is rejected by the index; that failure too is swallowed, so it leaves the
state unchanged. -/
def ai_search_index (env : Env) (action : SearchAction) (doc : IndexEntry)
    (st : St) : St :=
  if env.searchFails then st
  else
    match action with
    | .mergeOrUpload => { st with index := setA st.index doc.id doc }
    | .merge =>
      match getA st.index doc.id with
      | some old => { st with index := setA st.index doc.id (mergeEntry old doc) }
      | none => st
    | .delete => { st with index := eraseA st.index doc.id }

/-! The request shapes. -/

/-- Body of a create request (POST files). String-typed fields are modelled
at their expected type; tags stays a raw JSON value because upload_file
checks isinstance(tags, list) at runtime. -/
structure CreateReq where
  title : Option String
  description : Option String
  tags : Option JVal
  institution : Option String
  filename : Option String
  contentType : Option String
  contentBase64 : Option String
deriving Repr

/-- Body of an update request (PATCH files). update_file passes every
applied field through str(), so any JSON type is accepted here. -/
structure UpdateReq where
  title : Option JVal
  description : Option JVal
  tags : Option JVal
  institution : Option JVal
deriving Repr

/-- Result body of delete_file. -/
structure DeleteResult where
  deleted : Bool
  id : String
deriving Repr, DecidableEq

/-- Models the Python pattern (data.get(k) or d) for a string field: an
absent, null or falsy (empty) value is replaced by the default. -/
def strOr (v : Option String) (d : String) : String :=
  match v with
  | none => d
  | some s => if s = "" then d else s

/-- Python truthiness of an optional string, as in (if not content_b64). -/
def optTruthy (v : Option String) : Bool :=
  match v with
  | none => false
  | some s => s != ""

/-- dict.get for a JSON field: returns none for an absent key and also for
an explicit null, exactly as Python returns None for both. -/
def jget (v : Option JVal) : Option JVal :=
  match v with
  | some .jnull => none
  | x => x

/-- The tags value upload_file works with: (data.get("tags") or []), so an
absent or falsy tags becomes the empty list. -/
def createTags (req : CreateReq) : JVal :=
  match req.tags with
  | none => .jarr []
  | some v => if v.truthy then v else .jarr []

/-- The required-fields test of upload_file: (not title or not filename or
not content_b64), with title and filename already stripped. -/
def createMissing (req : CreateReq) : Bool :=
  pyStrip (strOr req.title "") == "" || pyStrip (strOr req.filename "") == ""
    || !optTruthy req.contentBase64

/-- filename.replace two path separator characters by an underscore, as in
upload_file. -/
def safeNameOf (filename : String) : String :=
  String.mk (replaceChar '/' '_' (replaceChar '\\' '_' filename.data))

/-- The metadata document built by upload_file once validation and decoding
succeeded. -/
def createdDoc (env : Env) (req : CreateReq) (file_bytes : List Nat) : FileDoc :=
  { id := env.newId
    title := pyStrip (strOr req.title "")
    description := pyStrip (strOr req.description "")
    institution := pyStrip (strOr req.institution "")
    tags := (createTags req).arrElems
    blobPath := env.blobContainer ++ "/" ++ (env.newId ++ "_" ++ safeNameOf (pyStrip (strOr req.filename "")))
    uploadedAt := env.now
    filename := pyStrip (strOr req.filename "")
    contentType := pyStrip (strOr req.contentType "application/octet-stream")
    sizeBytes := file_bytes.length }

/-- The index projection posted by upload_file (all seven fields). -/
def createProjection (doc : FileDoc) : IndexEntry :=
  { id := doc.id
    title := doc.title
    description := doc.description
    institution := doc.institution
    tags := doc.tags
    uploadedAt := some doc.uploadedAt
    blobPath := some doc.blobPath }

/-- Models upload_file (POST files). Side effects in source order: ensure
the container exists (failures ignored), upload the blob, create the
document, post the index upsert. A document id collision makes create_item
raise, modelled as a persistence error like any other document-write
failure. -/
def upload_file (env : Env) (req : CreateReq) (st : St) :
    Except ApiError FileDoc × St :=
  if createMissing req then
    (.error (.validationError "Missing required fields: title, filename, contentBase64"), st)
  else if !(createTags req).isArr then
    (.error (.validationError "tags must be a JSON array"), st)
  else
    match b64decode (req.contentBase64.getD "") with
    | none => (.error (.validationError "contentBase64 is not valid base64"), st)
    | some file_bytes =>
      let doc := createdDoc env req file_bytes
      let blob_name := env.newId ++ "_" ++ safeNameOf (pyStrip (strOr req.filename ""))
      let st1 : St := { st with containerExists := true }
      if env.blobUploadFails then (.error .storageError, st1)
      else
        let st2 : St := { st1 with
          blobs := setA st1.blobs blob_name ⟨file_bytes, doc.contentType⟩ }
        if env.docWriteFails || (getA st2.docs env.newId).isSome then
          (.error .persistenceError, st2)
        else
          let st3 : St := { st2 with docs := st2.docs ++ [(env.newId, doc)] }
          let st4 := ai_search_index env .mergeOrUpload (createProjection doc) st3
          (.ok doc, st4)

/-- The projection list_files selects for each document. -/
def projectDoc (d : FileDoc) : ListItem :=
  { id := d.id
    title := d.title
    description := d.description
    institution := d.institution
    tags := d.tags
    blobPath := d.blobPath
    uploadedAt := d.uploadedAt }

/-- Models list_files (GET list_files): a cross-partition query returning a
fixed projection of every document in store order. -/
def list_files (env : Env) (st : St) : Except ApiError (List ListItem) × St :=
  if env.docQueryFails then (.error .persistenceError, st)
  else (.ok (st.docs.map (fun p => projectDoc p.2)), st)

/-- True when the update request carries a tags value that is present,
non-null and not an array (tags is not None and not isinstance(tags, list)). -/
def updateTagsBad (req : UpdateReq) : Bool :=
  match jget req.tags with
  | some v => !v.isArr
  | none => false

/-- Field application of update_file: each field present in the request
replaces the stored one, stringified and stripped; tags elements are
stringified, stripped, and empty results dropped. Absent fields are left
untouched. -/
def applyPatch (req : UpdateReq) (item : FileDoc) : FileDoc :=
  let item1 := match jget req.title with
    | none => item
    | some v => { item with title := pyStrip (pyStr v) }
  let item2 := match jget req.description with
    | none => item1
    | some v => { item1 with description := pyStrip (pyStr v) }
  let item3 := match jget req.tags with
    | none => item2
    | some v => { item2 with
        tags := ((v.arrElems.map (fun t => pyStrip (pyStr t))).filter
          (fun s => s != "")).map .jstr }
  match jget req.institution with
  | none => item3
  | some v => { item3 with institution := pyStrip (pyStr v) }

/-- The partial projection posted by the merge action of update_file. -/
def mergeProjection (doc : FileDoc) : IndexEntry :=
  { id := doc.id
    title := doc.title
    description := doc.description
    institution := doc.institution
    tags := doc.tags
    uploadedAt := none
    blobPath := none }

/-- Models update_file (PATCH files). An empty file_id stands for a
missing route parameter. Steps in source order: id check, tags type check,
point read (missing id raises the not-found error of the document client),
field application, whole-document replace, best-effort index merge. -/
def update_file (env : Env) (file_id : String) (req : UpdateReq) (st : St) :
    Except ApiError FileDoc × St :=
  if file_id = "" then
    (.error (.validationError "Missing id in route"), st)
  else if updateTagsBad req then
    (.error (.validationError "tags must be a JSON array"), st)
  else if env.docReadFails then (.error .persistenceError, st)
  else
    match getA st.docs file_id with
    | none => (.error .notFoundError, st)
    | some item =>
      let updated := applyPatch req item
      if env.docWriteFails then (.error .persistenceError, st)
      else
        let st1 : St := { st with docs := setA st.docs file_id updated }
        let st2 := ai_search_index env .merge (mergeProjection updated) st1
        (.ok updated, st2)

/-- The blob name delete_file recovers from blobPath:
blob_path.split(slash, 1)[1] when a slash occurs in it, else empty. -/
def blobNameOf : List Char → String
  | [] => ""
  | c :: rest => if c = '/' then String.mk rest else blobNameOf rest

/-- The best-effort blob deletion step of delete_file: skipped entirely
when no blob name was recovered, and a failing delete is swallowed, leaving
the store as it was. -/
def deleteBlobStep (env : Env) (blob_name : String) (st : St) : St :=
  if blob_name ≠ "" then
    if env.blobDeleteFails then st
    else { st with blobs := eraseA st.blobs blob_name }
  else st

/-- Models delete_file (DELETE files). Steps in source order: id check,
point read (missing id raises not-found), best-effort blob delete (skipped
entirely when no blob name could be recovered from blobPath; failures
swallowed), authoritative document delete, best-effort index delete. -/
def delete_file (env : Env) (file_id : String) (st : St) :
    Except ApiError DeleteResult × St :=
  if file_id = "" then
    (.error (.validationError "Missing id in route"), st)
  else if env.docReadFails then (.error .persistenceError, st)
  else
    match getA st.docs file_id with
    | none => (.error .notFoundError, st)
    | some item =>
      let st1 := deleteBlobStep env (blobNameOf item.blobPath.data) st
      if env.docDeleteFails then (.error .persistenceError, st1)
      else
        let st2 : St := { st1 with docs := eraseA st1.docs file_id }
        let st3 := ai_search_index env .delete
          ⟨file_id, "", "", "", [], none, none⟩ st2
        (.ok ⟨true, file_id⟩, st3)

/-- Models search_files (GET search). An empty q stands for a missing or
empty query parameter. The query posts to the index restricted to the
fields title, description, institution, tags with top 20; the hits the
index would return are supplied by the environment, and any search backend
failure (non-2xx status or exception) surfaces as a search error. -/
def search_files (env : Env) (q : String) (st : St) :
    Except ApiError (List JVal) × St :=
  if q = "" then
    (.error (.validationError "Missing query parameter: q"), st)
  else if env.searchFails then (.error .searchUnavailableError, st)
  else (.ok env.searchResults, st)

/-! Shared concrete fixtures for witnesses and counterexamples. -/

/-- An environment in which every backend call succeeds. -/
def envOK : Env :=
  { blobContainer := "files", newId := "id-1", now := "2026-01-01T00:00:00+00:00"
    blobUploadFails := false, blobDeleteFails := false, docReadFails := false
    docWriteFails := false, docDeleteFails := false, docQueryFails := false
    searchFails := false, searchResults := [] }

/-- The empty backend state. -/
def st0 : St := { containerExists := false, blobs := [], docs := [], index := [] }

/-- A well-formed create request. -/
def reqOK : CreateReq :=
  { title := some "Report", description := some "notes"
    tags := some (.jarr [.jstr "x"]), institution := some "MIT"
    filename := some "a/b.pdf", contentType := none
    contentBase64 := some "aGk=" }

/-! Small facts about the association lists and the index helper. -/

/-- Reading the key just written. -/
theorem getA_setA_self {α : Type} (m : List (String × α)) (k : String) (v : α) :
    getA (setA m k v) k = some v := by
  induction m with
  | nil => simp [getA, setA]
  | cons p rest ih =>
    obtain ⟨k1, v1⟩ := p
    by_cases h : k1 = k <;> simp [getA, setA, h, ih]

/-- Reading another key after a write. -/
theorem getA_setA_ne {α : Type} (m : List (String × α)) (k k' : String) (v : α)
    (h : k ≠ k') : getA (setA m k v) k' = getA m k' := by
  induction m with
  | nil => simp [getA, setA, h]
  | cons p rest ih =>
    obtain ⟨k1, v1⟩ := p
    by_cases h1 : k1 = k <;> simp [getA, setA, h1, ih]
    · subst h1; simp [getA, h]

/-- Reading a deleted key. -/
theorem getA_eraseA_self {α : Type} (m : List (String × α)) (k : String) :
    getA (eraseA m k) k = none := by
  induction m with
  | nil => simp [getA, eraseA]
  | cons p rest ih =>
    obtain ⟨k1, v1⟩ := p
    by_cases h : k1 = k <;> simp [getA, eraseA, h, ih]

/-- The index helper never touches the container flag, the blob store or
the document store, and never reports an error: only the index component
can change. -/
theorem ai_search_index_primary_frame (env : Env) (a : SearchAction)
    (e : IndexEntry) (st : St) :
    (ai_search_index env a e st).containerExists = st.containerExists ∧
    (ai_search_index env a e st).blobs = st.blobs ∧
    (ai_search_index env a e st).docs = st.docs := by
  unfold ai_search_index
  by_cases h : env.searchFails <;> cases a <;> simp [h]
  cases getA st.index e.id <;> simp

/-- C1: for a create request that passes validation, a failing blob write
makes the whole operation fail with the storage error, and the final state
differs from the initial one only in the container-existence flag: in
particular no metadata document is written (no orphan metadata), which also
shows the document write is attempted only after the blob write succeeded. -/
theorem c1_create_blob_failure_no_orphan (env : Env) (req : CreateReq) (st : St)
    (hmiss : createMissing req = false)
    (harr : (createTags req).isArr = true)
    (hb64 : (b64decode (req.contentBase64.getD "")).isSome = true)
    (hfail : env.blobUploadFails = true) :
    (upload_file env req st).1 = .error .storageError ∧
    (upload_file env req st).2 = { st with containerExists := true } := by
  obtain ⟨bs, hbs⟩ := Option.isSome_iff_exists.mp hb64
  simp [upload_file, hmiss, harr, hbs, hfail]

/-- Witness for C1 at a concrete request and environment. -/
theorem c1_witness :
    createMissing reqOK = false ∧ (createTags reqOK).isArr = true ∧
    (b64decode (reqOK.contentBase64.getD "")).isSome = true ∧
    Env.blobUploadFails { envOK with blobUploadFails := true } = true ∧
    (upload_file { envOK with blobUploadFails := true } reqOK st0).1
      = .error .storageError ∧
    (upload_file { envOK with blobUploadFails := true } reqOK st0).2
      = { st0 with containerExists := true } := by
  have h := c1_create_blob_failure_no_orphan
    { envOK with blobUploadFails := true } reqOK st0 rfl rfl rfl rfl
  exact ⟨rfl, rfl, rfl, rfl, h.1, h.2⟩

/-- Frame of the blob deletion step: the container flag, the documents and
the index are untouched. -/
theorem deleteBlobStep_frame (env : Env) (n : String) (st : St) :
    (deleteBlobStep env n st).containerExists = st.containerExists ∧
    (deleteBlobStep env n st).docs = st.docs ∧
    (deleteBlobStep env n st).index = st.index := by
  unfold deleteBlobStep
  split <;> try split
  all_goals simp

/-- A create request that is valid except that tags is a falsy non-array
value (the empty string). -/
def reqFalsyTags : CreateReq := { reqOK with tags := some (.jstr "") }

/-- C2 counterexample: a create request with tags present and set to a
non-array value (the empty string) does not fail at all: the expression
(data.get("tags") or []) replaces every falsy tags value by the empty list
before the isinstance check, so the create succeeds. -/
theorem c2_counterexample :
    reqFalsyTags.tags = some (.jstr "") ∧
    JVal.isArr (.jstr "") = false ∧
    exceptOk (upload_file envOK reqFalsyTags st0).1 = true ∧
    (upload_file envOK reqFalsyTags st0).1
      = .ok (createdDoc envOK reqFalsyTags [104, 105]) :=
  ⟨rfl, rfl, rfl, rfl⟩

/-- C2 amended: on update, tags present (non-null) and not an array always
fails with the tags validation error and writes nothing. On create the same
holds only for a truthy non-array tags value (a falsy one is replaced by the
empty list), and when the required-fields check also fails the reported
message is the missing-fields one; either way it is a validation failure
with no backend write. -/
theorem c2_tags_must_be_array (env : Env) (file_id : String) (ureq : UpdateReq)
    (creq : CreateReq) (st : St)
    (hid : file_id ≠ "") (hu : updateTagsBad ureq = true) :
    update_file env file_id ureq st
      = (.error (.validationError "tags must be a JSON array"), st) ∧
    ((createTags creq).isArr = false →
      upload_file env creq st
        = (.error (.validationError
            (if createMissing creq then
              "Missing required fields: title, filename, contentBase64"
             else "tags must be a JSON array")), st)) := by
  constructor
  · simp [update_file, hid, hu]
  · intro hc
    by_cases hm : createMissing creq <;> simp [upload_file, hm, hc]

/-- Witness for C2 amended at a concrete update and create request. -/
theorem c2_witness :
    ("f1" : String) ≠ "" ∧
    updateTagsBad ⟨none, none, some (.jstr "x"), none⟩ = true ∧
    (createTags { reqOK with tags := some (.jstr "x") }).isArr = false ∧
    update_file envOK "f1" ⟨none, none, some (.jstr "x"), none⟩ st0
      = (.error (.validationError "tags must be a JSON array"), st0) ∧
    upload_file envOK { reqOK with tags := some (.jstr "x") } st0
      = (.error (.validationError "tags must be a JSON array"), st0) := by
  have h := c2_tags_must_be_array envOK "f1" ⟨none, none, some (.jstr "x"), none⟩
    { reqOK with tags := some (.jstr "x") } st0 (by decide) rfl
  refine ⟨by decide, rfl, rfl, h.1, ?_⟩
  have h2 := h.2 rfl
  simpa using h2

/-- A valid create request whose tags carry an empty entry. -/
def reqC3 : CreateReq := { reqOK with tags := some (.jarr [.jstr "a", .jstr ""]) }

/-- C3 counterexample: empty tag entries supplied at create time are NOT
discarded: upload_file stores the tags list verbatim (only update_file drops
empty entries), so the empty entry appears in the stored document and in the
list read-back. -/
theorem c3_counterexample :
    exceptOk (upload_file envOK reqC3 st0).1 = true ∧
    (list_files envOK (upload_file envOK reqC3 st0).2).1
      = .ok [projectDoc (createdDoc envOK reqC3 [104, 105])] ∧
    (createdDoc envOK reqC3 [104, 105]).tags.map pyStr = ["a", ""] ∧
    ((createdDoc envOK reqC3 [104, 105]).tags.map pyStr).contains "" = true :=
  ⟨rfl, rfl, rfl, rfl⟩

/-- C3 amended: for every valid create request, creating a file and then
reading it back via list yields exactly the created document projection: the
title, description and institution as stripped at create time, and the tags
exactly as supplied (after the falsy-to-empty-list defaulting), order
preserved and empty entries retained, not dropped. -/
theorem c3_create_list_roundtrip (env : Env) (req : CreateReq) (st : St)
    (bs : List Nat)
    (hmiss : createMissing req = false)
    (harr : (createTags req).isArr = true)
    (hb : b64decode (req.contentBase64.getD "") = some bs)
    (hup : env.blobUploadFails = false)
    (hdw : env.docWriteFails = false)
    (hfresh : (getA st.docs env.newId).isSome = false)
    (hq : env.docQueryFails = false) :
    (upload_file env req st).1 = .ok (createdDoc env req bs) ∧
    (list_files env (upload_file env req st).2).1
      = .ok ((st.docs.map (fun p => projectDoc p.2))
          ++ [projectDoc (createdDoc env req bs)]) ∧
    (createdDoc env req bs).title = pyStrip (strOr req.title "") ∧
    (createdDoc env req bs).description = pyStrip (strOr req.description "") ∧
    (createdDoc env req bs).institution = pyStrip (strOr req.institution "") ∧
    (createdDoc env req bs).tags = (createTags req).arrElems := by
  have hdocs : (upload_file env req st).2.docs
      = st.docs ++ [(env.newId, createdDoc env req bs)] := by
    simp [upload_file, hmiss, harr, hb, hup, hdw, hfresh,
      (ai_search_index_primary_frame _ _ _ _).2.2]
  refine ⟨?_, ?_, rfl, rfl, rfl, rfl⟩
  · simp [upload_file, hmiss, harr, hb, hup, hdw, hfresh]
  · simp [list_files, hq, hdocs]

/-- Witness for C3 amended at a concrete request. -/
theorem c3_witness :
    createMissing reqOK = false ∧ (createTags reqOK).isArr = true ∧
    b64decode (reqOK.contentBase64.getD "") = some [104, 105] ∧
    (upload_file envOK reqOK st0).1 = .ok (createdDoc envOK reqOK [104, 105]) ∧
    (list_files envOK (upload_file envOK reqOK st0).2).1
      = .ok [projectDoc (createdDoc envOK reqOK [104, 105])] ∧
    (createdDoc envOK reqOK [104, 105]).tags = [.jstr "x"] := by
  have h := c3_create_list_roundtrip envOK reqOK st0 [104, 105]
    rfl rfl rfl rfl rfl rfl rfl
  exact ⟨rfl, rfl, rfl, h.1, by simpa using h.2.1, rfl⟩

/-- The document created by the fixture request. -/
def doc1 : FileDoc := createdDoc envOK reqOK [104, 105]

/-- The backend state right after the fixture create. -/
def st1 : St := (upload_file envOK reqOK st0).2

/-- C4: for every update that passes validation and finds its document, the
replaced document keeps blobPath, filename, sizeBytes, contentType,
uploadedAt and id exactly as stored, and every metadata field absent from
the request (such as description, institution and tags when only title is
sent) keeps its stored value: omitted fields are never nulled. -/
theorem c4_update_partial_frame (env : Env) (file_id : String) (req : UpdateReq)
    (st : St) (old : FileDoc)
    (hid : file_id ≠ "")
    (ht : updateTagsBad req = false)
    (hr : env.docReadFails = false)
    (hw : env.docWriteFails = false)
    (hold : getA st.docs file_id = some old) :
    (update_file env file_id req st).1 = .ok (applyPatch req old) ∧
    getA (update_file env file_id req st).2.docs file_id
      = some (applyPatch req old) ∧
    (applyPatch req old).blobPath = old.blobPath ∧
    (applyPatch req old).filename = old.filename ∧
    (applyPatch req old).sizeBytes = old.sizeBytes ∧
    (applyPatch req old).contentType = old.contentType ∧
    (applyPatch req old).uploadedAt = old.uploadedAt ∧
    (applyPatch req old).id = old.id ∧
    (jget req.title = none → (applyPatch req old).title = old.title) ∧
    (jget req.description = none →
      (applyPatch req old).description = old.description) ∧
    (jget req.institution = none →
      (applyPatch req old).institution = old.institution) ∧
    (jget req.tags = none → (applyPatch req old).tags = old.tags) := by
  have hframe :
      (applyPatch req old).blobPath = old.blobPath ∧
      (applyPatch req old).filename = old.filename ∧
      (applyPatch req old).sizeBytes = old.sizeBytes ∧
      (applyPatch req old).contentType = old.contentType ∧
      (applyPatch req old).uploadedAt = old.uploadedAt ∧
      (applyPatch req old).id = old.id ∧
      (jget req.title = none → (applyPatch req old).title = old.title) ∧
      (jget req.description = none →
        (applyPatch req old).description = old.description) ∧
      (jget req.institution = none →
        (applyPatch req old).institution = old.institution) ∧
      (jget req.tags = none → (applyPatch req old).tags = old.tags) := by
    unfold applyPatch
    rcases h1 : jget req.title with _ | v1 <;>
      rcases h2 : jget req.description with _ | v2 <;>
        rcases h3 : jget req.tags with _ | v3 <;>
          rcases h4 : jget req.institution with _ | v4 <;> simp
  refine ⟨?_, ?_, hframe.1, hframe.2.1, hframe.2.2.1, hframe.2.2.2.1,
    hframe.2.2.2.2.1, hframe.2.2.2.2.2.1, hframe.2.2.2.2.2.2.1,
    hframe.2.2.2.2.2.2.2.1, hframe.2.2.2.2.2.2.2.2.1,
    hframe.2.2.2.2.2.2.2.2.2⟩
  · simp [update_file, hid, ht, hr, hw, hold]
  · have hdocs : (update_file env file_id req st).2.docs
        = setA st.docs file_id (applyPatch req old) := by
      simp [update_file, hid, ht, hr, hw, hold,
        (ai_search_index_primary_frame _ _ _ _).2.2]
    rw [hdocs, getA_setA_self]

/-- A patch carrying only a new title. -/
def reqTitleOnly : UpdateReq :=
  { title := some (.jstr "New Title"), description := none
    tags := none, institution := none }

/-- Witness for C4: updating only the title of the fixture document. -/
theorem c4_witness :
    ("id-1" : String) ≠ "" ∧ updateTagsBad reqTitleOnly = false ∧
    getA st1.docs "id-1" = some doc1 ∧
    (update_file envOK "id-1" reqTitleOnly st1).1
      = .ok (applyPatch reqTitleOnly doc1) ∧
    getA (update_file envOK "id-1" reqTitleOnly st1).2.docs "id-1"
      = some (applyPatch reqTitleOnly doc1) ∧
    (applyPatch reqTitleOnly doc1).title = "New Title" ∧
    (applyPatch reqTitleOnly doc1).description = doc1.description ∧
    (applyPatch reqTitleOnly doc1).institution = doc1.institution ∧
    (applyPatch reqTitleOnly doc1).tags = doc1.tags ∧
    (applyPatch reqTitleOnly doc1).blobPath = doc1.blobPath ∧
    (applyPatch reqTitleOnly doc1).uploadedAt = doc1.uploadedAt := by
  have h := c4_update_partial_frame envOK "id-1" reqTitleOnly st1 doc1
    (by decide) rfl rfl rfl rfl
  exact ⟨by decide, rfl, rfl, h.1, h.2.1, rfl, rfl, rfl, rfl, rfl, rfl⟩

/-- A patch whose title is whitespace only. -/
def reqBlankTitle : UpdateReq :=
  { title := some (.jstr " "), description := none
    tags := none, institution := none }

/-- C5 counterexample: update_file applies str(title).strip() with no
non-emptiness check, so an update whose title strips to the empty string
replaces a non-empty stored title with the empty string: the stored-title
invariant is not preserved by update. -/
theorem c5_counterexample :
    doc1.title = "Report" ∧
    (update_file envOK "id-1" reqBlankTitle st1).1
      = .ok (applyPatch reqBlankTitle doc1) ∧
    (applyPatch reqBlankTitle doc1).title = "" ∧
    ((update_file envOK "id-1" reqBlankTitle st1).2.docs.map
      (fun p => (p.2).title)) = [""] :=
  ⟨rfl, rfl, rfl, rfl⟩

/-- C5 amended: the create operation does reject requests whose title strips
to the empty string (validation error, nothing written), but the update
operation stores the stripped supplied title unconditionally, even when it
is empty after stripping; so the non-empty-title invariant holds at creation
only and update can break it. -/
theorem c5_title_create_only (env : Env) (req : CreateReq) (file_id : String)
    (ureq : UpdateReq) (st : St) (old : FileDoc) (v : JVal)
    (hti : pyStrip (strOr req.title "") = "")
    (hid : file_id ≠ "")
    (ht : updateTagsBad ureq = false)
    (hr : env.docReadFails = false)
    (hw : env.docWriteFails = false)
    (hold : getA st.docs file_id = some old)
    (hv : ureq.title = some v)
    (hvn : v ≠ .jnull) :
    upload_file env req st
      = (.error (.validationError
          "Missing required fields: title, filename, contentBase64"), st) ∧
    (update_file env file_id ureq st).1 = .ok (applyPatch ureq old) ∧
    (applyPatch ureq old).title = pyStrip (pyStr v) := by
  have hjget : jget ureq.title = some v := by
    rw [hv]; cases v <;> simp_all [jget]
  have hmiss : createMissing req = true := by
    simp [createMissing, hti]
  refine ⟨by simp [upload_file, hmiss], by simp [update_file, hid, ht, hr, hw, hold], ?_⟩
  unfold applyPatch
  rw [hjget]
  rcases h2 : jget ureq.description with _ | v2 <;>
    rcases h3 : jget ureq.tags with _ | v3 <;>
      rcases h4 : jget ureq.institution with _ | v4 <;> simp

/-- A create request whose title is whitespace only. -/
def reqWsTitle : CreateReq := { reqOK with title := some "  " }

/-- Witness for C5 amended: blank-title create is rejected while the
blank-title update goes through and stores the empty title. -/
theorem c5_witness :
    pyStrip (strOr reqWsTitle.title "") = "" ∧
    reqBlankTitle.title = some (.jstr " ") ∧
    upload_file envOK reqWsTitle st1
      = (.error (.validationError
          "Missing required fields: title, filename, contentBase64"), st1) ∧
    (update_file envOK "id-1" reqBlankTitle st1).1
      = .ok (applyPatch reqBlankTitle doc1) ∧
    (applyPatch reqBlankTitle doc1).title = pyStrip (pyStr (.jstr " ")) ∧
    pyStrip (pyStr (.jstr " ")) = "" := by
  have h := c5_title_create_only envOK reqWsTitle "id-1" reqBlankTitle st1 doc1
    (.jstr " ") rfl (by decide) rfl rfl rfl rfl rfl
    (fun hc => JVal.noConfusion hc)
  exact ⟨rfl, rfl, h.1, h.2.1, h.2.2, rfl⟩

/-- C6 counterexample: an update whose id refers to no document but whose
tags value is a non-array fails with the tags validation error, not with the
not-found error, because the tags type check runs before the document read. -/
theorem c6_counterexample :
    getA st0.docs "missing" = none ∧
    (update_file envOK "missing" ⟨none, none, some (.jstr "x"), none⟩ st0).1
      = .error (.validationError "tags must be a JSON array") ∧
    (update_file envOK "missing" ⟨none, none, some (.jstr "x"), none⟩ st0).1
      ≠ .error .notFoundError := by
  refine ⟨rfl, rfl, ?_⟩
  have h : (update_file envOK "missing" ⟨none, none, some (.jstr "x"), none⟩ st0).1
      = .error (.validationError "tags must be a JSON array") := rfl
  rw [h]
  simp

/-- C6 amended: an update that passes the tags validation, or any delete,
on an id that refers to no document fails with the not-found error (a
distinct error kind from backend failures, which surface as persistence
errors) and changes nothing; and after any successful delete, a second
delete of the same id fails with the not-found error. -/
theorem c6_missing_id_not_found (env env2 : Env) (file_id : String)
    (ureq : UpdateReq) (st : St)
    (hid : file_id ≠ "")
    (ht : updateTagsBad ureq = false)
    (hr : env.docReadFails = false)
    (hnone : getA st.docs file_id = none)
    (hr2 : env2.docReadFails = false) :
    update_file env file_id ureq st = (.error .notFoundError, st) ∧
    delete_file env file_id st = (.error .notFoundError, st) ∧
    (∀ stA : St, exceptOk (delete_file env2 file_id stA).1 = true →
      (delete_file env2 file_id (delete_file env2 file_id stA).2).1
        = .error .notFoundError) := by
  refine ⟨by simp [update_file, hid, ht, hr, hnone],
    by simp [delete_file, hid, hr, hnone], ?_⟩
  intro stA hsucc
  rcases hlook : getA stA.docs file_id with _ | item
  · exfalso
    simp [delete_file, hid, hr2, hlook, exceptOk] at hsucc
  · by_cases hdd : env2.docDeleteFails
    · exfalso
      simp [delete_file, hid, hr2, hlook, hdd, exceptOk] at hsucc
    · have hdocs : (delete_file env2 file_id stA).2.docs
          = eraseA stA.docs file_id := by
        simp [delete_file, hid, hr2, hlook, hdd,
          (ai_search_index_primary_frame _ _ _ _).2.2,
          (deleteBlobStep_frame _ _ _).2.1]
      have h2 : getA (delete_file env2 file_id stA).2.docs file_id = none := by
        rw [hdocs]; exact getA_eraseA_self _ _
      generalize (delete_file env2 file_id stA).2 = stB at h2
      simp [delete_file, hid, hr2, h2]

/-- A one-document state keyed by the id "missing". -/
def stM : St := { st0 with docs := [("missing", doc1)] }

/-- Witness for C6 amended: update and delete of an absent id, then a
delete-twice run on a state that does hold the id. -/
theorem c6_witness :
    ("missing" : String) ≠ "" ∧
    updateTagsBad reqTitleOnly = false ∧
    getA st0.docs "missing" = none ∧
    update_file envOK "missing" reqTitleOnly st0
      = (.error .notFoundError, st0) ∧
    delete_file envOK "missing" st0 = (.error .notFoundError, st0) ∧
    exceptOk (delete_file envOK "missing" stM).1 = true ∧
    (delete_file envOK "missing" (delete_file envOK "missing" stM).2).1
      = .error .notFoundError := by
  have h := c6_missing_id_not_found envOK envOK "missing" reqTitleOnly st0
    (by decide) rfl rfl rfl rfl
  exact ⟨by decide, rfl, rfl, h.1, h.2.1, rfl, h.2.2 stM rfl⟩

/-- C7: for every valid create, the storage key is the generated id, an
underscore, and the stripped filename with the separator characters '/' and
'\' each replaced by '_'; blobPath is the container name, '/', and that
key; sizeBytes is the decoded byte length; and the decoded bytes sit in the
blob store under that key with the requested content type. -/
theorem c7_storage_key_and_size (env : Env) (req : CreateReq) (st : St)
    (bs : List Nat)
    (hmiss : createMissing req = false)
    (harr : (createTags req).isArr = true)
    (hb : b64decode (req.contentBase64.getD "") = some bs)
    (hup : env.blobUploadFails = false)
    (hdw : env.docWriteFails = false)
    (hfresh : (getA st.docs env.newId).isSome = false) :
    (upload_file env req st).1 = .ok (createdDoc env req bs) ∧
    (createdDoc env req bs).sizeBytes = bs.length ∧
    (createdDoc env req bs).blobPath
      = env.blobContainer ++ "/"
        ++ (env.newId ++ "_" ++ safeNameOf (pyStrip (strOr req.filename ""))) ∧
    safeNameOf (pyStrip (strOr req.filename ""))
      = String.mk (replaceChar '/' '_'
          (replaceChar '\\' '_' (pyStrip (strOr req.filename "")).data)) ∧
    getA (upload_file env req st).2.blobs
        (env.newId ++ "_" ++ safeNameOf (pyStrip (strOr req.filename "")))
      = some ⟨bs, (createdDoc env req bs).contentType⟩ := by
  refine ⟨by simp [upload_file, hmiss, harr, hb, hup, hdw, hfresh], rfl, rfl, rfl, ?_⟩
  have hblobs : (upload_file env req st).2.blobs
      = setA st.blobs
          (env.newId ++ "_" ++ safeNameOf (pyStrip (strOr req.filename "")))
          ⟨bs, (createdDoc env req bs).contentType⟩ := by
    simp [upload_file, hmiss, harr, hb, hup, hdw, hfresh,
      (ai_search_index_primary_frame _ _ _ _).2.1]
  rw [hblobs, getA_setA_self]

/-- Witness for C7: the scenario of the spec, filename a/b.pdf with the
base64 encoding of "hi". -/
theorem c7_witness :
    reqOK.filename = some "a/b.pdf" ∧ reqOK.contentBase64 = some "aGk=" ∧
    b64decode "aGk=" = some [104, 105] ∧
    safeNameOf (pyStrip (strOr reqOK.filename "")) = "a_b.pdf" ∧
    (upload_file envOK reqOK st0).1 = .ok (createdDoc envOK reqOK [104, 105]) ∧
    (createdDoc envOK reqOK [104, 105]).sizeBytes = 2 ∧
    (createdDoc envOK reqOK [104, 105]).blobPath = "files/id-1_a_b.pdf" ∧
    getA (upload_file envOK reqOK st0).2.blobs "id-1_a_b.pdf"
      = some ⟨[104, 105], "application/octet-stream"⟩ := by
  have h := c7_storage_key_and_size envOK reqOK st0 [104, 105]
    rfl rfl rfl rfl rfl rfl
  exact ⟨rfl, rfl, rfl, rfl, h.1, rfl, rfl, by simpa using h.2.2.2.2⟩

/-- A create request whose contentBase64 is a single space: non-empty, so it
passes the presence check, but empty after trimming. -/
def reqWsB64 : CreateReq := { reqOK with contentBase64 := some " " }

/-- C8 counterexample: a contentBase64 that is empty after trimming but not
empty as sent does NOT produce the missing-required-fields error: the code
never strips contentBase64, so the whitespace value passes the presence
check and fails base64 validation instead, with the invalid-base64 message. -/
theorem c8_counterexample :
    reqWsB64.contentBase64 = some " " ∧
    pyStrip " " = "" ∧
    optTruthy (some " ") = true ∧
    (upload_file envOK reqWsB64 st0).1
      = .error (.validationError "contentBase64 is not valid base64") ∧
    (upload_file envOK reqWsB64 st0).1
      ≠ .error (.validationError
          "Missing required fields: title, filename, contentBase64") := by
  refine ⟨rfl, rfl, rfl, rfl, ?_⟩
  have h : (upload_file envOK reqWsB64 st0).1
      = .error (.validationError "contentBase64 is not valid base64") := rfl
  rw [h]
  simp

/-- C8 amended: a create request whose title or filename is absent or strips
to empty, or whose contentBase64 is absent or the empty string (presence
only, no stripping), fails with the missing-required-fields validation error
and no side effect; one that passes presence and tags validation but whose
contentBase64 is not valid base64 fails with the invalid-base64 validation
error and no side effect. A whitespace-only contentBase64 falls in the
second class, not the first. -/
theorem c8_validation_no_side_effects (env : Env) (req : CreateReq) (st : St) :
    (createMissing req = true →
      upload_file env req st
        = (.error (.validationError
            "Missing required fields: title, filename, contentBase64"), st)) ∧
    (createMissing req = false → (createTags req).isArr = true →
      b64decode (req.contentBase64.getD "") = none →
      upload_file env req st
        = (.error (.validationError "contentBase64 is not valid base64"), st)) := by
  constructor
  · intro hm
    simp [upload_file, hm]
  · intro hm ha hb
    simp [upload_file, hm, ha, hb]

/-- Witness for C8 amended: a request missing its filename, and the
whitespace contentBase64 request. -/
theorem c8_witness :
    createMissing { reqOK with filename := none } = true ∧
    createMissing reqWsB64 = false ∧
    (createTags reqWsB64).isArr = true ∧
    b64decode (reqWsB64.contentBase64.getD "") = none ∧
    upload_file envOK { reqOK with filename := none } st0
      = (.error (.validationError
          "Missing required fields: title, filename, contentBase64"), st0) ∧
    upload_file envOK reqWsB64 st0
      = (.error (.validationError "contentBase64 is not valid base64"), st0) := by
  refine ⟨rfl, rfl, rfl, rfl, ?_, ?_⟩
  · exact (c8_validation_no_side_effects envOK { reqOK with filename := none } st0).1 rfl
  · exact (c8_validation_no_side_effects envOK reqWsB64 st0).2 rfl rfl rfl

/-- upload_file consults searchFails only inside ai_search_index, which can
touch only the index: the result and the primary stores are independent of
it. -/
theorem upload_file_search_irrel (env : Env) (b : Bool) (req : CreateReq)
    (st : St) :
    (upload_file { env with searchFails := b } req st).1
      = (upload_file env req st).1 ∧
    (upload_file { env with searchFails := b } req st).2.docs
      = (upload_file env req st).2.docs ∧
    (upload_file { env with searchFails := b } req st).2.blobs
      = (upload_file env req st).2.blobs := by
  by_cases h1 : createMissing req
  · simp [upload_file, h1]
  · by_cases h2 : (createTags req).isArr
    · rcases h3 : b64decode (req.contentBase64.getD "") with _ | bs
      · simp [upload_file, h1, h2, h3]
      · by_cases h4 : env.blobUploadFails
        · simp [upload_file, h1, h2, h3, h4]
        · by_cases h5 : env.docWriteFails
          · simp [upload_file, h1, h2, h3, h4, h5, createdDoc]
          · by_cases h6 : (getA st.docs env.newId).isSome
            · simp [upload_file, h1, h2, h3, h4, h5, h6, createdDoc]
            · simp [upload_file, h1, h2, h3, h4, h5, h6, createdDoc,
                (ai_search_index_primary_frame _ _ _ _).2.1,
                (ai_search_index_primary_frame _ _ _ _).2.2]
    · simp [upload_file, h1, h2]

/-- update_file: result and document store are independent of searchFails. -/
theorem update_file_search_irrel (env : Env) (b : Bool) (file_id : String)
    (req : UpdateReq) (st : St) :
    (update_file { env with searchFails := b } file_id req st).1
      = (update_file env file_id req st).1 ∧
    (update_file { env with searchFails := b } file_id req st).2.docs
      = (update_file env file_id req st).2.docs := by
  by_cases h1 : file_id = ""
  · simp [update_file, h1]
  · by_cases h2 : updateTagsBad req
    · simp [update_file, h1, h2]
    · by_cases h3 : env.docReadFails
      · simp [update_file, h1, h2, h3]
      · rcases h4 : getA st.docs file_id with _ | item
        · simp [update_file, h1, h2, h3, h4]
        · by_cases h5 : env.docWriteFails
          · simp [update_file, h1, h2, h3, h4, h5]
          · simp [update_file, h1, h2, h3, h4, h5,
              (ai_search_index_primary_frame _ _ _ _).2.2]

/-- delete_file: result, document store and blob store are independent of
searchFails. -/
theorem delete_file_search_irrel (env : Env) (b : Bool) (file_id : String)
    (st : St) :
    (delete_file { env with searchFails := b } file_id st).1
      = (delete_file env file_id st).1 ∧
    (delete_file { env with searchFails := b } file_id st).2.docs
      = (delete_file env file_id st).2.docs ∧
    (delete_file { env with searchFails := b } file_id st).2.blobs
      = (delete_file env file_id st).2.blobs := by
  by_cases h1 : file_id = ""
  · simp [delete_file, h1]
  · by_cases h2 : env.docReadFails
    · simp [delete_file, h1, h2]
    · rcases h3 : getA st.docs file_id with _ | item
      · simp [delete_file, h1, h2, h3]
      · by_cases h4 : env.docDeleteFails
        · simp [delete_file, h1, h2, h3, h4, deleteBlobStep]
        · simp [delete_file, h1, h2, h3, h4, deleteBlobStep,
            (ai_search_index_primary_frame _ _ _ _).2.1,
            (ai_search_index_primary_frame _ _ _ _).2.2]

/-- C9: flipping the search-backend failure flag changes neither the result
nor the primary stores of create, update or delete — a failing index
mutation is swallowed and the operation still reports its primary result —
while a search request under the same failure fails with the
search-unavailable error. -/
theorem c9_search_failures_secondary (env : Env) (b : Bool) (creq : CreateReq)
    (file_id : String) (ureq : UpdateReq) (st : St) (q : String)
    (hq : q ≠ "") :
    (upload_file { env with searchFails := b } creq st).1
      = (upload_file env creq st).1 ∧
    (upload_file { env with searchFails := b } creq st).2.docs
      = (upload_file env creq st).2.docs ∧
    (upload_file { env with searchFails := b } creq st).2.blobs
      = (upload_file env creq st).2.blobs ∧
    (update_file { env with searchFails := b } file_id ureq st).1
      = (update_file env file_id ureq st).1 ∧
    (update_file { env with searchFails := b } file_id ureq st).2.docs
      = (update_file env file_id ureq st).2.docs ∧
    (delete_file { env with searchFails := b } file_id st).1
      = (delete_file env file_id st).1 ∧
    (delete_file { env with searchFails := b } file_id st).2.docs
      = (delete_file env file_id st).2.docs ∧
    (delete_file { env with searchFails := b } file_id st).2.blobs
      = (delete_file env file_id st).2.blobs ∧
    (search_files { env with searchFails := true } q st).1
      = .error .searchUnavailableError := by
  obtain ⟨hu1, hu2, hu3⟩ := upload_file_search_irrel env b creq st
  obtain ⟨hp1, hp2⟩ := update_file_search_irrel env b file_id ureq st
  obtain ⟨hd1, hd2, hd3⟩ := delete_file_search_irrel env b file_id st
  exact ⟨hu1, hu2, hu3, hp1, hp2, hd1, hd2, hd3, by simp [search_files, hq]⟩

/-- Witness for C9: the fixture create, update and delete run with the
search backend down, and a search query against the same backend. -/
theorem c9_witness :
    ("report" : String) ≠ "" ∧
    (upload_file { envOK with searchFails := true } reqOK st0).1
      = (upload_file envOK reqOK st0).1 ∧
    (update_file { envOK with searchFails := true } "id-1" reqTitleOnly st1).1
      = (update_file envOK "id-1" reqTitleOnly st1).1 ∧
    (delete_file { envOK with searchFails := true } "id-1" st1).1
      = (delete_file envOK "id-1" st1).1 ∧
    (search_files { envOK with searchFails := true } "report" st1).1
      = .error .searchUnavailableError := by
  have hc := c9_search_failures_secondary envOK true reqOK "id-1" reqTitleOnly
    st0 "report" (by decide)
  have hu := c9_search_failures_secondary envOK true reqOK "id-1" reqTitleOnly
    st1 "report" (by decide)
  exact ⟨by decide, hc.1, hu.2.2.2.1, hu.2.2.2.2.2.1, hu.2.2.2.2.2.2.2.2⟩

/-- When a character stream holds no '/' at all, no blob name is recovered
from it. -/
theorem blobNameOf_no_slash (cs : List Char) (h : cs.contains '/' = false) :
    blobNameOf cs = "" := by
  induction cs with
  | nil => rfl
  | cons c rest ih =>
    rw [List.contains_cons] at h
    simp only [Bool.or_eq_false_iff] at h
    have hc : ¬ c = '/' := by
      intro he; subst he; simp at h
    simp [blobNameOf, hc, ih h.2]

/-- C10: deleting a document whose blobPath is empty or holds no '/'
separator issues no blob-store delete at all (the blob store is unchanged
whatever the blob backend would have done), yet still deletes the document
and the index entry and reports deleted-true with the id. -/
theorem c10_delete_without_blob (env : Env) (file_id : String) (st : St)
    (item : FileDoc)
    (hid : file_id ≠ "")
    (hr : env.docReadFails = false)
    (hold : getA st.docs file_id = some item)
    (hns : item.blobPath.data.contains '/' = false)
    (hdd : env.docDeleteFails = false)
    (hsf : env.searchFails = false) :
    (delete_file env file_id st).1 = .ok ⟨true, file_id⟩ ∧
    (delete_file env file_id st).2.blobs = st.blobs ∧
    (delete_file env file_id st).2.docs = eraseA st.docs file_id ∧
    getA (delete_file env file_id st).2.docs file_id = none ∧
    (delete_file env file_id st).2.index = eraseA st.index file_id := by
  have hname : blobNameOf item.blobPath.data = "" := blobNameOf_no_slash _ hns
  have hstep : deleteBlobStep env (blobNameOf item.blobPath.data) st = st := by
    rw [hname]; simp [deleteBlobStep]
  refine ⟨?_, ?_, ?_, ?_, ?_⟩ <;>
    simp [delete_file, hid, hr, hold, hstep, hdd, hsf, ai_search_index,
      getA_eraseA_self]

/-- A document whose blobPath is empty, in a one-document state. -/
def docNoSlash : FileDoc := { doc1 with blobPath := "" }

/-- A state holding docNoSlash under the id "id-9", with one unrelated blob
present. -/
def stNoSlash : St :=
  { st0 with
    docs := [("id-9", docNoSlash)]
    blobs := [("other", ⟨[1], "application/octet-stream"⟩)]
    index := [("id-9", createProjection docNoSlash)] }

/-- Witness for C10 at a concrete state with an empty blobPath. -/
theorem c10_witness :
    ("id-9" : String) ≠ "" ∧
    getA stNoSlash.docs "id-9" = some docNoSlash ∧
    docNoSlash.blobPath.data.contains '/' = false ∧
    (delete_file envOK "id-9" stNoSlash).1 = .ok ⟨true, "id-9"⟩ ∧
    (delete_file envOK "id-9" stNoSlash).2.blobs = stNoSlash.blobs ∧
    (delete_file envOK "id-9" stNoSlash).2.docs = [] ∧
    (delete_file envOK "id-9" stNoSlash).2.index = [] := by
  have h := c10_delete_without_blob envOK "id-9" stNoSlash docNoSlash
    (by decide) rfl rfl rfl rfl rfl
  refine ⟨by decide, rfl, rfl, h.1, h.2.1, ?_, ?_⟩
  · rw [h.2.2.1]; rfl
  · rw [h.2.2.2.2]; rfl
